import Mathlib

/-!
Shallow embedding of the uptime-monitor repository: the prober
(checkWebsite), the JSON-document store operations (addLog, deleteSite,
getLatestLogs, getUptimeStats), the status-change decision used by the
scheduler loop (checkAllSites), the Telegram notifier (sendNotification)
with its per-key cooldown map, and the manual single-site check route
(POST /check/:id).  Timestamps are modelled as natural numbers
(milliseconds), JS string truthiness as emptiness tests, and the
promise settling of checkWebsite as an optional Except value
(ok = resolve, error = reject, none = the promise never settles).
-/

namespace UptimeMonitor

/-- Probe status classification: the checker resolves with UP or DOWN. -/
inductive Status where
  | UP
  | DOWN
deriving DecidableEq

/-- The value checkWebsite resolves with: status, response time, details. -/
structure Outcome where
  status : Status
  responseTime : Option Nat
  details : String
deriving DecidableEq

/-- The event one checkWebsite call can end in: a response carrying a
status code after a measured elapsed time, the 15 second timeout
firing, a transport error with a message delivered to the error
handler, or a synchronous throw while issuing the request inside the
promise executor (url.parse or client.get throwing, as http.get does
with ERR_INVALID_PROTOCOL for a non-http(s) address such as ftp://,
which passes the new URL validation of the /add route). -/
inductive ProbeEvent where
  | response (statusCode : Nat) (elapsed : Nat)
  | timeout
  | transportError (msg : String)
  | syncThrow (msg : String)
deriving DecidableEq

/-- checkWebsite from the checker module, as the function from the
network event to how the returned promise settles.  ok means resolve,
error means reject, none means the promise never settles (the code
resolves a response only when statusCode is truthy, that is nonzero).
On a response the status is UP when the code is in 200..399 and DOWN
otherwise, details is the interpolated status-code string, and the
response time is the measured elapsed time.  On timeout or transport
error the code resolves DOWN with null response time.  A synchronous
throw inside the promise executor, before any handler is attached,
rejects the promise with the thrown error message. -/
def checkWebsiteSettle : ProbeEvent → Option (Except String Outcome)
  | ProbeEvent.response statusCode elapsed =>
      if statusCode ≠ 0 then
        some (Except.ok
          { status := if 200 ≤ statusCode ∧ statusCode < 400 then Status.UP else Status.DOWN
            responseTime := some elapsed
            details := "Status code: " ++ toString statusCode })
      else
        none
  | ProbeEvent.timeout =>
      some (Except.ok
        { status := Status.DOWN
          responseTime := none
          details := "Request timed out after 15 seconds." })
  | ProbeEvent.transportError msg =>
      some (Except.ok
        { status := Status.DOWN
          responseTime := none
          details := msg })
  | ProbeEvent.syncThrow msg =>
      some (Except.error msg)

/-- The resolved value of checkWebsite, when the promise resolves. -/
def checkWebsite (ev : ProbeEvent) : Option Outcome :=
  (checkWebsiteSettle ev).bind fun r =>
    match r with
    | Except.ok o => some o
    | Except.error _ => none

/-- A monitored site record as stored in database.json. -/
structure Site where
  id : Nat
  url : String
  created_at : Nat
  is_paused : Bool
deriving DecidableEq

/-- A log (observation) record as stored in database.json. -/
structure Log where
  id : Nat
  site_id : Nat
  status : Status
  response_time : Option Nat
  details : String
  checked_at : Nat
deriving DecidableEq

/-- A registered user; telegram_chat_id is null or a string. -/
structure User where
  id : Nat
  username : String
  telegram_chat_id : Option String
deriving DecidableEq

/-- The JSON document database: sites and logs (users kept separately). -/
structure DB where
  sites : List Site
  logs : List Log
deriving DecidableEq

/-- The id addLog assigns: max of the existing log ids plus one when
the log list is nonempty, otherwise 1. -/
def nextLogId (logs : List Log) : Nat :=
  if logs.length > 0 then (logs.map Log.id).foldl max 0 + 1 else 1

/-- addLog from the database module: push a new log whose id is
nextLogId, carrying the outcome fields and the current timestamp. -/
def addLog (db : DB) (site_id : Nat) (o : Outcome) (now : Nat) : DB :=
  { db with
    logs := db.logs ++
      [{ id := nextLogId db.logs
         site_id := site_id
         status := o.status
         response_time := o.responseTime
         details := o.details
         checked_at := now }] }

/-- Result of deleteSite: the returned boolean, the database content
after the call, and whether writeDB was invoked. -/
structure DeleteResult where
  deleted : Bool
  db : DB
  wrote : Bool
deriving DecidableEq

/-- deleteSite from the database module: findIndex on sites; when the
id is absent return false having touched nothing and written nothing;
otherwise splice the site out, filter out its logs, and write. -/
def deleteSite (db : DB) (id : Nat) : DeleteResult :=
  match db.sites.findIdx? (fun s => s.id == id) with
  | none => { deleted := false, db := db, wrote := false }
  | some i =>
      { deleted := true
        db := { sites := db.sites.eraseIdx i
                logs := db.logs.filter (fun l => l.site_id != id) }
        wrote := true }

/-- getLatestLogs restricted to one site: the fold over the log list
keeping the entry with the strictly greatest checked_at (first wins
ties), exactly as the loop in the database module builds
latestLogs[site_id]. -/
def getLatestLog (logs : List Log) (site_id : Nat) : Option Log :=
  logs.foldl
    (fun acc l =>
      if l.site_id == site_id then
        match acc with
        | none => some l
        | some cur => if cur.checked_at < l.checked_at then some l else some cur
      else acc)
    none

/-- Milliseconds in 24 hours. -/
def twentyFourHoursMs : Nat := 24 * 60 * 60 * 1000

/-- Milliseconds in 7 days. -/
def sevenDaysMs : Nat := 7 * 24 * 60 * 60 * 1000

/-- calcUptime from getUptimeStats: filter the logs to those with
checked_at at or after the cutoff; none when no log qualifies
(the code returns the string N/A), otherwise the percentage of UP
logs expressed in hundredths of a percent, rounded as toFixed(2)
rounds an exact value (round half up on the exact rational). -/
def calcUptime (logs : List Log) (since : Nat) : Option ℤ :=
  let relevantLogs := logs.filter (fun l => decide (since ≤ l.checked_at))
  if relevantLogs.length = 0 then none
  else
    let upLogs := (relevantLogs.filter (fun l => l.status == Status.UP)).length
    some (round ((upLogs * 10000 : ℚ) / relevantLogs.length))

/-- getUptimeStats from the database module: the 24 hour and 7 day
uptime figures over the logs of one site. -/
def getUptimeStats (db : DB) (site_id : Nat) (now : Nat) : Option ℤ × Option ℤ :=
  let siteLogs := db.logs.filter (fun l => l.site_id == site_id)
  (calcUptime siteLogs (now - twentyFourHoursMs),
   calcUptime siteLogs (now - sevenDaysMs))

/-- The status-change decision used both by checkAllSites
(previousLog and previousLog.status differs from result.status) and by
sendNotification (statusChanged). -/
def shouldNotify (previousLog : Option Log) (result : Outcome) : Bool :=
  match previousLog with
  | none => false
  | some p => p.status != result.status

/-- The chat ids a status change is fanned out to in checkAllSites:
every registered user whose telegram_chat_id is truthy (set and
nonempty), independent of the site. -/
def configuredChats (users : List User) : List String :=
  users.filterMap fun u =>
    match u.telegram_chat_id with
    | some s => if s = "" then none else some s
    | none => none

/-- The chat ids to which sendNotification is invoked for one site in
one checkAllSites iteration: all configured chats when the status
changed, none otherwise. -/
def tickSiteNotifications (users : List User) (_site : Site)
    (previousLog : Option Log) (result : Outcome) : List String :=
  if shouldNotify previousLog result then configuredChats users else []

/-- One checkAllSites iteration for one active site: read the previous
log from the latest-log index taken before the append, append the new
log, and fan the notification out when the status changed. -/
def scheduledSiteCheck (db : DB) (users : List User) (site : Site)
    (result : Outcome) (now : Nat) : DB × List String :=
  let previousLog := getLatestLog db.logs site.id
  (addLog db site.id result now,
   tickSiteNotifications users site previousLog result)

/-- Result of the manual single-site check route POST /check/:id. -/
inductive ManualCheckResult where
  | siteNotFound
  | skippedPaused
  | checked (db : DB) (notifiedChats : List String)
deriving DecidableEq

/-- The POST /check/:id handler: 404 when the site id is unknown, a
plain redirect without probing when the site is paused, otherwise
probe, addLog and redirect.  The handler contains no notification
call, so the list of chats notified is empty. -/
def manualCheck (db : DB) (id : Nat) (result : Outcome) (now : Nat) :
    ManualCheckResult :=
  match db.sites.find? (fun s => s.id == id) with
  | none => ManualCheckResult.siteNotFound
  | some site =>
      if site.is_paused then ManualCheckResult.skippedPaused
      else ManualCheckResult.checked (addLog db id result now) []

/-- The rate-limit map of the Telegram service: key to timestamp. -/
structure NotifyState where
  lastNotificationTimestamps : List (String × Nat)
deriving DecidableEq

/-- Map.get on the timestamp map. -/
def mapGet (m : List (String × Nat)) (k : String) : Option Nat :=
  (m.find? (fun p => p.1 == k)).map Prod.snd

/-- Map.set on the timestamp map. -/
def mapSet (m : List (String × Nat)) (k : String) (v : Nat) : List (String × Nat) :=
  (k, v) :: m.filter (fun p => p.1 != k)

/-- One hour in milliseconds, the rate-limit window. -/
def oneHour : Nat := 60 * 60 * 1000

/-- The key sendNotification throttles on: chat id and site id. -/
def notifKey (chatId : String) (site : Site) : String :=
  chatId ++ "-" ++ toString site.id

/-- Result of sendNotification: the returned boolean, whether
bot.sendMessage was invoked, and the rate-limit map afterwards. -/
structure NotifyResult where
  sent : Bool
  attempted : Bool
  state : NotifyState
deriving DecidableEq

/-- sendNotification from the Telegram service.  botConfigured models
whether the bot token was present; a falsy (empty) chat id returns
false at once.  Then: return false when the status did not change;
return false without sending when less than one hour passed since the
timestamp stored under the key (absent keys read as 0); otherwise
attempt delivery (transportOk tells whether bot.sendMessage succeeds):
on success store now under the key and return true, on failure the
catch block returns false leaving the map untouched. -/
def sendNotification (botConfigured : Bool) (chatId : String) (site : Site)
    (previousLog : Option Log) (currentLog : Log) (now : Nat)
    (transportOk : Bool) (st : NotifyState) : NotifyResult :=
  if !botConfigured || chatId == "" then
    { sent := false, attempted := false, state := st }
  else
    let statusChanged :=
      match previousLog with
      | none => false
      | some p => p.status != currentLog.status
    if !statusChanged then
      { sent := false, attempted := false, state := st }
    else
      let key := notifKey chatId site
      let lastNotification := (mapGet st.lastNotificationTimestamps key).getD 0
      if now - lastNotification < oneHour then
        { sent := false, attempted := false, state := st }
      else
        if transportOk then
          { sent := true
            attempted := true
            state := { lastNotificationTimestamps :=
                        mapSet st.lastNotificationTimestamps key now } }
        else
          { sent := false, attempted := true, state := st }

/-- Example site fixture used by the concrete witnesses. -/
def exSite1 : Site :=
  { id := 1, url := "https://a.example", created_at := 0, is_paused := false }

/-- Second example site fixture. -/
def exSite2 : Site :=
  { id := 2, url := "https://b.example", created_at := 0, is_paused := false }

/-- Example UP outcome fixture. -/
def exUpOutcome : Outcome :=
  { status := Status.UP, responseTime := some 100, details := "Status code: 200" }

/-- Example DOWN outcome fixture (a timeout). -/
def exDownOutcome : Outcome :=
  { status := Status.DOWN, responseTime := none
    details := "Request timed out after 15 seconds." }

/-- Example UP log fixture for site 1. -/
def exUpLog : Log :=
  { id := 1, site_id := 1, status := Status.UP, response_time := some 100
    details := "Status code: 200", checked_at := 1000 }

/-- Example DOWN log fixture for site 1. -/
def exDownLog : Log :=
  { id := 2, site_id := 1, status := Status.DOWN, response_time := none
    details := "Request timed out after 15 seconds.", checked_at := 2000 }

/-- Example user fixture with a configured chat. -/
def exUser1 : User := { id := 1, username := "alice", telegram_chat_id := some "chat1" }

/-- Second example user fixture with a configured chat. -/
def exUser2 : User := { id := 2, username := "bob", telegram_chat_id := some "chat2" }

/-- C2: shouldNotify is true iff a previous observation exists whose
status differs from the current status; with no previous observation it
is false, and equal consecutive statuses give false. -/
theorem C2_shouldNotify_iff_status_change (prev : Option Log) (cur : Outcome) :
    (shouldNotify prev cur = true ↔ ∃ p, prev = some p ∧ p.status ≠ cur.status) ∧
    shouldNotify none cur = false ∧
    (∀ p : Log, p.status = cur.status → shouldNotify (some p) cur = false) := by
  refine ⟨?_, rfl, ?_⟩
  · cases prev with
    | none => simp [shouldNotify]
    | some p => simp [shouldNotify]
  · intro p hp
    simp [shouldNotify, hp]

/-- Witness for C2: two consecutive UP observations never notify. -/
theorem C2_witness : shouldNotify (some exUpLog) exUpOutcome = false :=
  (C2_shouldNotify_iff_status_change (some exUpLog) exUpOutcome).2.2 exUpLog rfl

/-- C9: a probe that receives a response with an explicit nonzero status
code c resolves with status UP iff 200 ≤ c < 400 (and DOWN iff not),
with detail string built as "Status code: " followed by the code. -/
theorem C9_response_classification (c t : Nat) (hc : c ≠ 0) :
    ∃ o : Outcome, checkWebsite (ProbeEvent.response c t) = some o ∧
      (o.status = Status.UP ↔ (200 ≤ c ∧ c < 400)) ∧
      (o.status = Status.DOWN ↔ ¬(200 ≤ c ∧ c < 400)) ∧
      o.details = "Status code: " ++ toString c := by
  by_cases h : 200 ≤ c ∧ c < 400
  · refine ⟨{ status := Status.UP, responseTime := some t
              details := "Status code: " ++ toString c }, ?_, ?_, ?_, rfl⟩
    · simp [checkWebsite, checkWebsiteSettle, hc, h]
    · simp [h]
    · simp [h]
  · refine ⟨{ status := Status.DOWN, responseTime := some t
              details := "Status code: " ++ toString c }, ?_, ?_, ?_, rfl⟩
    · simp [checkWebsite, checkWebsiteSettle, hc, h]
    · simp [h]
    · simp [h]

/-- Witness for C9: an HTTP 404 response yields DOWN with detail
"Status code: 404". -/
theorem C9_witness :
    ∃ o : Outcome, checkWebsite (ProbeEvent.response 404 37) = some o ∧
      (o.status = Status.UP ↔ (200 ≤ 404 ∧ 404 < 400)) ∧
      (o.status = Status.DOWN ↔ ¬(200 ≤ 404 ∧ 404 < 400)) ∧
      o.details = "Status code: " ++ toString 404 :=
  C9_response_classification 404 37 (by decide)

/-- C4 counterexample: the pre-request synchronous-throw path rejects
the promise: for an address whose protocol is neither http nor https
(such as ftp://, which passes the new URL check of the /add route and
is stored raw), client.get throws ERR_INVALID_PROTOCOL inside the
promise executor, so the caller sees a rejection, not a resolved
outcome - refuting the claim that the probe never rejects. -/
theorem C4_counterexample :
    checkWebsiteSettle
        (ProbeEvent.syncThrow "Protocol \"ftp:\" not supported. Expected \"http:\"") =
      some (Except.error "Protocol \"ftp:\" not supported. Expected \"http:\"") ∧
    ∀ o : Outcome,
      (Except.error "Protocol \"ftp:\" not supported. Expected \"http:\"" :
        Except String Outcome) ≠ Except.ok o := by
  exact ⟨rfl, fun o h => Except.noConfusion h⟩

/-- C4 amended: a rejection arises exactly from a synchronous throw
while issuing the request; every event of an issued request settles as
a resolve, a timeout resolving DOWN with null latency and the fixed
timeout detail text, and a transport failure resolving DOWN with null
latency and the underlying error message. -/
theorem C4_settle_classification :
    (∀ ev r, checkWebsiteSettle ev = some r →
      (∃ o, r = Except.ok o) ∨
      ∃ msg, ev = ProbeEvent.syncThrow msg ∧ r = Except.error msg) ∧
    checkWebsite ProbeEvent.timeout =
      some { status := Status.DOWN, responseTime := none
             details := "Request timed out after 15 seconds." } ∧
    (∀ msg, checkWebsite (ProbeEvent.transportError msg) =
      some { status := Status.DOWN, responseTime := none, details := msg }) := by
  refine ⟨?_, rfl, fun msg => rfl⟩
  intro ev r h
  cases ev with
  | response c t =>
      by_cases hc : c = 0
      · simp [checkWebsiteSettle, hc] at h
      · simp [checkWebsiteSettle, hc] at h
        exact Or.inl ⟨_, h.symm⟩
  | timeout =>
      simp [checkWebsiteSettle] at h
      exact Or.inl ⟨_, h.symm⟩
  | transportError msg =>
      simp [checkWebsiteSettle] at h
      exact Or.inl ⟨_, h.symm⟩
  | syncThrow msg =>
      simp [checkWebsiteSettle] at h
      exact Or.inr ⟨msg, rfl, h.symm⟩

/-- Witness for the amended C4: the timeout settles as a resolve. -/
theorem C4_witness :
    (∃ o, (Except.ok { status := Status.DOWN, responseTime := none
                       details := "Request timed out after 15 seconds." } :
             Except String Outcome) = Except.ok o) ∨
    ∃ msg, ProbeEvent.timeout = ProbeEvent.syncThrow msg ∧
      (Except.ok { status := Status.DOWN, responseTime := none
                   details := "Request timed out after 15 seconds." } :
         Except String Outcome) = Except.error msg :=
  C4_settle_classification.1 ProbeEvent.timeout _ rfl

/-- Concrete DOWN outcome carrying a measured latency, as produced by a
response with status code 500 after 42 milliseconds. -/
def exDown500 : Outcome :=
  { status := Status.DOWN, responseTime := some 42, details := "Status code: 500" }

/-- C1 counterexample: a probe receiving a 500 response resolves DOWN
with a present (non-null) response time, and appending that outcome
stores a DOWN observation with non-null latency, refuting that every
DOWN observation records a null latency. -/
theorem C1_counterexample :
    checkWebsite (ProbeEvent.response 500 42) = some exDown500 ∧
    exDown500.status = Status.DOWN ∧
    exDown500.responseTime = some 42 ∧
    ((addLog { sites := [exSite1], logs := [] } 1 exDown500 1000).logs.map
      fun l => (l.status, l.response_time)) = [(Status.DOWN, some 42)] := by
  refine ⟨by decide, rfl, rfl, by decide⟩

/-- C1 amended: the resolved outcome carries a response time iff the
probe event was a response with a status code (UP outcomes always carry
one, but a DOWN classified from an error response also does; only
timeout and transport-failure outcomes record null), and addLog stores
status and latency unchanged. -/
theorem C1_latency_present_iff_response (ev : ProbeEvent) (o : Outcome)
    (h : checkWebsite ev = some o) :
    (o.responseTime.isSome = true ↔ ∃ c t, ev = ProbeEvent.response c t) ∧
    (o.status = Status.UP → o.responseTime.isSome = true) ∧
    (∀ db sid now, ∃ newLog : Log,
      (addLog db sid o now).logs = db.logs ++ [newLog] ∧
      newLog.status = o.status ∧ newLog.response_time = o.responseTime) := by
  have h3 : ∀ db sid now, ∃ newLog : Log,
      (addLog db sid o now).logs = db.logs ++ [newLog] ∧
      newLog.status = o.status ∧ newLog.response_time = o.responseTime :=
    fun db sid now => ⟨_, rfl, rfl, rfl⟩
  refine ⟨?_, ?_, h3⟩
  · cases ev with
    | response c t =>
        by_cases hc : c = 0
        · simp [checkWebsite, checkWebsiteSettle, hc] at h
        · simp [checkWebsite, checkWebsiteSettle, hc] at h
          subst h
          simp
    | timeout =>
        simp [checkWebsite, checkWebsiteSettle] at h
        subst h
        simp
    | transportError msg =>
        simp [checkWebsite, checkWebsiteSettle] at h
        subst h
        simp
    | syncThrow msg =>
        simp [checkWebsite, checkWebsiteSettle] at h
  · cases ev with
    | response c t =>
        by_cases hc : c = 0
        · simp [checkWebsite, checkWebsiteSettle, hc] at h
        · simp [checkWebsite, checkWebsiteSettle, hc] at h
          subst h
          intro _
          rfl
    | timeout =>
        simp [checkWebsite, checkWebsiteSettle] at h
        subst h
        simp
    | transportError msg =>
        simp [checkWebsite, checkWebsiteSettle] at h
        subst h
        simp
    | syncThrow msg =>
        simp [checkWebsite, checkWebsiteSettle] at h

/-- Witness for the amended C1 at the 500-response probe. -/
theorem C1_witness :
    exDown500.responseTime.isSome = true ↔
      ∃ c t, ProbeEvent.response 500 42 = ProbeEvent.response c t :=
  (C1_latency_present_iff_response (ProbeEvent.response 500 42) exDown500 (by decide)).1

/-- Database fixture with two sites and no logs. -/
def exDB2 : DB := { sites := [exSite1, exSite2], logs := [] }

/-- C7 counterexample: append a log for site 1 (id 1) and one for
site 2 (id 2); deleting site 2 removes the log with id 2; the next
append then assigns id 2 again, so an identifier previously assigned by
an append is reused after a deletion. -/
theorem C7_counterexample :
    ((addLog (addLog exDB2 1 exUpOutcome 1000) 2 exUpOutcome 2000).logs.map Log.id
      = [1, 2]) ∧
    ((deleteSite (addLog (addLog exDB2 1 exUpOutcome 1000) 2 exUpOutcome 2000) 2).db.logs.map
        Log.id = [1]) ∧
    nextLogId
      (deleteSite (addLog (addLog exDB2 1 exUpOutcome 1000) 2 exUpOutcome 2000) 2).db.logs
      = 2 ∧
    2 ∈ ((addLog (addLog exDB2 1 exUpOutcome 1000) 2 exUpOutcome 2000).logs.map Log.id) := by
  refine ⟨by decide, by decide, by decide, by decide⟩

/-- The accumulator bounds a max fold from below. -/
theorem le_max_foldl (a : Nat) (xs : List Nat) : a ≤ xs.foldl max a := by
  induction xs generalizing a with
  | nil => exact Nat.le_refl a
  | cons y ys ih => exact Nat.le_trans (Nat.le_max_left a y) (ih (max a y))

/-- Every member bounds a max fold from below. -/
theorem mem_le_max_foldl (a x : Nat) (xs : List Nat) (hx : x ∈ xs) :
    x ≤ xs.foldl max a := by
  induction xs generalizing a with
  | nil => cases hx
  | cons y ys ih =>
      rcases List.mem_cons.mp hx with rfl | hmem
      · exact Nat.le_trans (Nat.le_max_right a x) (le_max_foldl (max a x) ys)
      · exact ih (max a y) hmem

/-- C7 amended: each append adds exactly one log whose id is nextLogId,
strictly greater than every id currently in the log list; the id is
computed only from ids present at call time, so strict lifetime growth
holds only while no deletion removes the maximal id. -/
theorem C7_append_id_exceeds_current (db : DB) (sid : Nat) (o : Outcome) (now : Nat) :
    ∃ newLog : Log,
      (addLog db sid o now).logs = db.logs ++ [newLog] ∧
      newLog.id = nextLogId db.logs ∧
      ∀ l ∈ db.logs, l.id < newLog.id := by
  refine ⟨{ id := nextLogId db.logs, site_id := sid, status := o.status
            response_time := o.responseTime, details := o.details
            checked_at := now }, rfl, rfl, ?_⟩
  intro l hl
  show l.id < nextLogId db.logs
  unfold nextLogId
  have hlen : db.logs.length > 0 := List.length_pos.mpr (List.ne_nil_of_mem hl)
  rw [if_pos hlen]
  have hle : l.id ≤ (db.logs.map Log.id).foldl max 0 :=
    mem_le_max_foldl 0 l.id _ (List.mem_map_of_mem Log.id hl)
  omega

/-- Witness for the amended C7 on the two-site fixture. -/
theorem C7_witness :
    ∃ newLog : Log,
      (addLog exDB2 1 exUpOutcome 1000).logs = exDB2.logs ++ [newLog] ∧
      newLog.id = nextLogId exDB2.logs ∧
      ∀ l ∈ exDB2.logs, l.id < newLog.id :=
  C7_append_id_exceeds_current exDB2 1 exUpOutcome 1000

/-- C10: deleting an id that matches no stored site returns false,
leaves the database unchanged and performs no write; and whenever a
delete does report success, no log referencing the deleted id remains. -/
theorem C10_delete_missing_is_noop (db : DB) (id : Nat)
    (h : ∀ s ∈ db.sites, s.id ≠ id) :
    deleteSite db id = { deleted := false, db := db, wrote := false } ∧
    ∀ db2 : DB, ∀ l ∈ (deleteSite db2 id).db.logs,
      (deleteSite db2 id).deleted = true → l.site_id ≠ id := by
  constructor
  · have hidx : db.sites.findIdx? (fun s => s.id == id) = none := by
      rw [List.findIdx?_eq_none_iff]
      intro s hs
      simpa using h s hs
    unfold deleteSite
    rw [hidx]
  · intro db2 l
    unfold deleteSite
    cases db2.sites.findIdx? (fun s => s.id == id) with
    | none =>
        intro _ hdel
        exact absurd hdel (by simp)
    | some i =>
        intro hl _
        have hmem := List.mem_filter.mp hl
        simpa using hmem.2

/-- Witness for C10: deleting the unknown id 5 changes nothing. -/
theorem C10_witness :
    deleteSite { sites := [exSite1], logs := [exUpLog] } 5 =
      { deleted := false, db := { sites := [exSite1], logs := [exUpLog] }
        wrote := false } ∧
    ∀ db2 : DB, ∀ l ∈ (deleteSite db2 5).db.logs,
      (deleteSite db2 5).deleted = true → l.site_id ≠ 5 :=
  C10_delete_missing_is_noop { sites := [exSite1], logs := [exUpLog] } 5 (by decide)

/-- C5 counterexample: on a status change of site 1 the fan-out targets
every registered user with a configured chat (both chat1 and chat2),
and the very same list results for the unrelated site 2: a system-wide
broadcast, not endpoint-specific destinations. -/
theorem C5_counterexample :
    tickSiteNotifications [exUser1, exUser2] exSite1 (some exUpLog) exDownOutcome
      = ["chat1", "chat2"] ∧
    tickSiteNotifications [exUser1, exUser2] exSite2 (some exUpLog) exDownOutcome
      = ["chat1", "chat2"] := by
  refine ⟨by decide, by decide⟩

/-- C5 amended: the notification fan-out of one scheduler iteration is
independent of which site transitioned, and on a status change it
targets exactly the configured chats of all registered users. -/
theorem C5_broadcast_to_all_configured (users : List User) (s s2 : Site)
    (prev : Option Log) (cur : Outcome) :
    tickSiteNotifications users s prev cur = tickSiteNotifications users s2 prev cur ∧
    (shouldNotify prev cur = true →
      tickSiteNotifications users s prev cur = configuredChats users) ∧
    (shouldNotify prev cur = false →
      tickSiteNotifications users s prev cur = []) := by
  unfold tickSiteNotifications
  refine ⟨rfl, ?_, ?_⟩
  · intro h
    simp [h]
  · intro h
    simp [h]

/-- Witness for the amended C5 on the two-user fixture. -/
theorem C5_witness :
    tickSiteNotifications [exUser1, exUser2] exSite1 (some exUpLog) exDownOutcome
      = configuredChats [exUser1, exUser2] :=
  (C5_broadcast_to_all_configured [exUser1, exUser2] exSite1 exSite2
    (some exUpLog) exDownOutcome).2.1 (by decide)

/-- C6 counterexample: with a prior UP log for site 1 and a DOWN probe
result, the manual check route appends the log but notifies nobody,
while the scheduled check of the same site in the same state appends
the identical log and notifies chat1. -/
theorem C6_counterexample :
    manualCheck { sites := [exSite1], logs := [exUpLog] } 1 exDownOutcome 2000 =
      ManualCheckResult.checked
        (addLog { sites := [exSite1], logs := [exUpLog] } 1 exDownOutcome 2000) [] ∧
    (scheduledSiteCheck { sites := [exSite1], logs := [exUpLog] } [exUser1] exSite1
        exDownOutcome 2000).1 =
      addLog { sites := [exSite1], logs := [exUpLog] } 1 exDownOutcome 2000 ∧
    (scheduledSiteCheck { sites := [exSite1], logs := [exUpLog] } [exUser1] exSite1
        exDownOutcome 2000).2 = ["chat1"] ∧
    ([] : List String) ≠ ["chat1"] := by
  refine ⟨by decide, by decide, by decide, by decide⟩

/-- C6 amended: the manual check probes and appends exactly as one
scheduled iteration does for the same site, but contains no
notification step, so it notifies no chat at all. -/
theorem C6_manual_check_appends_without_notify (db : DB) (id : Nat) (site : Site)
    (result : Outcome) (now : Nat) (users : List User)
    (hfind : db.sites.find? (fun s => s.id == id) = some site)
    (hp : site.is_paused = false) :
    site.id = id ∧
    manualCheck db id result now =
      ManualCheckResult.checked (addLog db id result now) [] ∧
    (scheduledSiteCheck db users site result now).1 = addLog db id result now := by
  have hsid : site.id = id := by
    have hfs := List.find?_some hfind
    simpa using hfs
  refine ⟨hsid, ?_, ?_⟩
  · unfold manualCheck
    rw [hfind]
    simp [hp]
  · simp [scheduledSiteCheck, hsid]

/-- Witness for the amended C6 on the one-site fixture. -/
theorem C6_witness :
    exSite1.id = 1 ∧
    manualCheck { sites := [exSite1], logs := [exUpLog] } 1 exDownOutcome 2000 =
      ManualCheckResult.checked
        (addLog { sites := [exSite1], logs := [exUpLog] } 1 exDownOutcome 2000) [] ∧
    (scheduledSiteCheck { sites := [exSite1], logs := [exUpLog] } [exUser1] exSite1
        exDownOutcome 2000).1 =
      addLog { sites := [exSite1], logs := [exUpLog] } 1 exDownOutcome 2000 :=
  C6_manual_check_appends_without_notify { sites := [exSite1], logs := [exUpLog] }
    1 exSite1 exDownOutcome 2000 [exUser1] (by decide) rfl

/-- C8: the 24 hour uptime figure is calcUptime over the logs of the
site with the 24 hour cutoff; a window holding zero observations yields
none (not zero); and a window with 3 UP and 1 DOWN observations yields
7500 hundredths of a percent, that is 75.00. -/
theorem C8_uptime_window (db : DB) (sid : Nat) (now : Nat) :
    (getUptimeStats db sid now).1 =
      calcUptime (db.logs.filter (fun l => l.site_id == sid)) (now - twentyFourHoursMs) ∧
    (∀ logs : List Log, ∀ since : Nat,
      logs.filter (fun l => decide (since ≤ l.checked_at)) = [] →
      calcUptime logs since = none) ∧
    calcUptime
      [{ id := 1, site_id := 1, status := Status.UP, response_time := some 100
         details := "", checked_at := 10 },
       { id := 2, site_id := 1, status := Status.UP, response_time := some 100
         details := "", checked_at := 11 },
       { id := 3, site_id := 1, status := Status.UP, response_time := some 100
         details := "", checked_at := 12 },
       { id := 4, site_id := 1, status := Status.DOWN, response_time := none
         details := "", checked_at := 13 }] 5
      = some 7500 := by
  refine ⟨rfl, ?_, ?_⟩
  · intro logs since hemp
    simp [calcUptime, hemp]
  · show calcUptime _ 5 = some 7500
    have hdu : (Status.DOWN == Status.UP) = false := by decide
    have huu : (Status.UP == Status.UP) = true := by decide
    unfold calcUptime
    norm_num [List.filter, hdu, huu, round, Int.fract]

/-- Witness for C8 on a concrete empty window. -/
theorem C8_witness :
    (getUptimeStats exDB2 1 0).1 =
      calcUptime (exDB2.logs.filter (fun l => l.site_id == 1)) (0 - twentyFourHoursMs) ∧
    calcUptime ([] : List Log) 0 = none :=
  ⟨(C8_uptime_window exDB2 1 0).1,
   (C8_uptime_window exDB2 1 0).2.1 [] 0 (by decide)⟩

/-- mapGet after mapSet on the same key reads the stored value. -/
theorem mapGet_mapSet_self (m : List (String × Nat)) (k : String) (v : Nat) :
    mapGet (mapSet m k v) k = some v := by
  unfold mapGet mapSet
  rw [List.find?_cons_of_pos _ (by simp)]
  rfl

/-- C3: with the bot configured, a truthy chat id and a real status
change, sendNotification skips (returns false, no delivery attempt, map
untouched) while less than one hour passed since the stored timestamp
for the chat-site key; once at least one hour passed, a successful
transport returns true and stores now under the key, while a transport
failure returns false, leaving the map untouched so the next qualifying
call may still deliver. -/
theorem C3_cooldown_gate (chatId : String) (site : Site) (p : Log) (cur : Log)
    (now : Nat) (st : NotifyState)
    (hchange : p.status ≠ cur.status) (hchat : chatId ≠ "") :
    (∀ t, mapGet st.lastNotificationTimestamps (notifKey chatId site) = some t →
      now - t < oneHour →
      ∀ transportOk,
        sendNotification true chatId site (some p) cur now transportOk st =
          { sent := false, attempted := false, state := st }) ∧
    (oneHour ≤ now - (mapGet st.lastNotificationTimestamps (notifKey chatId site)).getD 0 →
      sendNotification true chatId site (some p) cur now true st =
        { sent := true, attempted := true
          state := { lastNotificationTimestamps :=
                      mapSet st.lastNotificationTimestamps (notifKey chatId site) now } } ∧
      mapGet (mapSet st.lastNotificationTimestamps (notifKey chatId site) now)
        (notifKey chatId site) = some now ∧
      sendNotification true chatId site (some p) cur now false st =
        { sent := false, attempted := true, state := st }) := by
  have hbeq : (chatId == "") = false := by
    simp [hchat]
  have hst : (p.status != cur.status) = true := by
    simp [hchange]
  constructor
  · intro t ht hlt transportOk
    simp [sendNotification, hbeq, hst, ht, hlt]
  · intro hge
    have hnlt :
        ¬(now - (mapGet st.lastNotificationTimestamps (notifKey chatId site)).getD 0
            < oneHour) :=
      Nat.not_lt.mpr hge
    refine ⟨?_, mapGet_mapSet_self _ _ _, ?_⟩
    · simp [sendNotification, hbeq, hst, hnlt]
    · simp [sendNotification, hbeq, hst, hnlt]

/-- Witness for C3: empty map, now exactly one hour, UP to DOWN change:
success delivers and stores the timestamp, failure leaves the map
untouched. -/
theorem C3_witness :
    sendNotification true "chat1" exSite1 (some exUpLog) exDownLog oneHour true
        { lastNotificationTimestamps := [] } =
      { sent := true, attempted := true
        state := { lastNotificationTimestamps :=
                    mapSet [] (notifKey "chat1" exSite1) oneHour } } ∧
    mapGet (mapSet [] (notifKey "chat1" exSite1) oneHour) (notifKey "chat1" exSite1)
      = some oneHour ∧
    sendNotification true "chat1" exSite1 (some exUpLog) exDownLog oneHour false
        { lastNotificationTimestamps := [] } =
      { sent := false, attempted := true
        state := { lastNotificationTimestamps := [] } } :=
  (C3_cooldown_gate "chat1" exSite1 exUpLog exDownLog oneHour
    { lastNotificationTimestamps := [] } (by decide) (by decide)).2 (by decide)

end UptimeMonitor
